import Mathlib

/-!
Shallow embedding of the backtest engine of the `test-bot` repository
(`src/backtest/backtest.controller.ts`, service part: `runBacktest`,
`optimizeStrategy`, `validateStrategyRobustness`).

Modelling conventions:
* JS numbers are modelled as `ℚ`; the claims under study are control-flow and
  exact-formula facts, not floating-point rounding facts.
* The indicator pipeline (`technicalindicators` RSI/EMA) is an external
  collaborator (spec section 6): its output series are inputs of the model
  (`rsiValues`, `emaShort`, `emaLong`), constrained in the concrete runs to the
  library length contract (RSI over n closes emits n - period values, EMA emits
  n - period + 1 values).
* A JS out-of-range array read yields `undefined`, and every `<`/`>` comparison
  with `undefined` is false; this is modelled by `Option ℚ` lookups (`jsIdx`)
  and the comparison helpers `oLt`/`oGt`.
* `new Date(ts)` calendar keying (`toISOString().slice(0, 7)` months and
  `slice(0, 10)` days) is abstracted by parameters `monthOf, dayOf : ℤ → ℤ`;
  `Math.sqrt` by a parameter `sqrtFn : ℚ → ℚ` (instantiated with `ratSqrt`,
  which is exact on perfect-square rationals — all concrete uses below).
* `throw` in `runBacktest` is modelled by `Option`: `none` is the thrown error.
-/

namespace TrendBacktest

/-- One OHLCV bar as produced by `fetchHistoricalData` (the `date` string field
duplicates `timestamp` and is modelled by it). -/
structure Candle where
  timestamp : ℤ
  openPrice : ℚ
  high : ℚ
  low : ℚ
  close : ℚ
  volume : ℚ
  deriving DecidableEq, Repr

def defaultCandle : Candle := ⟨0, 0, 0, 0, 0, 0⟩

/-- `position.side` field: 'BUY' or 'SELL'. -/
inductive Side where
  | BUY
  | SELL
  deriving DecidableEq, Repr

/-- The transient `position` object created on entry
(`backtest.controller.ts` lines 399-407 and 425-433). `entryDate` and
`timestamp` both hold the entry candle's timestamp. -/
structure Position where
  side : Side
  entryPrice : ℚ
  stopLoss : ℚ
  takeProfit : ℚ
  size : ℚ
  entryDate : ℤ
  timestamp : ℤ
  deriving DecidableEq, Repr

/-- A completed `Trade` record (dto `backtest-result.dto.ts`); dates are
modelled by the candle timestamps they are derived from. -/
structure Trade where
  entryDate : ℤ
  entryPrice : ℚ
  exitDate : ℤ
  exitPrice : ℚ
  side : Side
  profit : ℚ
  profitPercent : ℚ
  duration : ℚ
  deriving DecidableEq, Repr

/-- The mutable locals of the `runBacktest` bar loop, gathered into a state
record (lines 231-243 initialise them). -/
structure SimState where
  balance : ℚ
  equity : ℚ
  position : Option Position
  trades : List Trade
  equityCurve : List ℚ
  monthlyReturns : List (ℤ × ℚ)
  maxBalance : ℚ
  maxDrawdown : ℚ
  lastMonthBalance : ℚ
  deriving DecidableEq, Repr

/-- Inputs of one simulation run: the fetched candle series, the three
indicator series computed over the closes, and the four numeric parameters of
`runBacktest`. -/
structure SimInput where
  historicalData : List Candle
  rsiValues : List ℚ
  emaShort : List ℚ
  emaLong : List ℚ
  initialBalance : ℚ
  positionSizePercent : ℚ
  stopLossPercent : ℚ
  takeProfitPercent : ℚ
  deriving DecidableEq, Repr

/-- Strategy constants fixed at lines 246-250. -/
def rsiPeriod : ℕ := 14

def rsiOverbought : ℚ := 70

def rsiOversold : ℚ := 30

def emaShortPeriod : ℕ := 9

def emaLongPeriod : ℕ := 21

/-- JS array subscript with an `ℤ` index: out of range (either side) gives
`undefined`, modelled as `none`. -/
def jsIdx (xs : List ℚ) (i : ℤ) : Option ℚ :=
  if 0 ≤ i then xs.get? i.toNat else none

/-- JS `<` where either operand may be `undefined` (always false then). -/
def oLt (a b : Option ℚ) : Bool :=
  match a, b with
  | some x, some y => decide (x < y)
  | _, _ => false

/-- JS `>` where either operand may be `undefined` (always false then). -/
def oGt (a b : Option ℚ) : Bool :=
  match a, b with
  | some x, some y => decide (y < x)
  | _, _ => false

/-- The indicator lookup of lines 274-279: `series[i - (series.length -
closes.length)]` (the prior-bar variants pass `i - 1` for `i`). -/
def indicatorAt (series : List ℚ) (closesLen : ℕ) (i : ℤ) : Option ℚ :=
  jsIdx series (i - ((series.length : ℤ) - (closesLen : ℤ)))

/-- Lines 282-291: on a calendar-month boundary, record the realized percent
return under the previous month's key and reset `lastMonthBalance`. The JS
record keyed by month string is modelled as an association list. -/
def monthlyUpdate (monthOf : ℤ → ℤ) (s : SimState) (candle prevCandle : Candle) : SimState :=
  if monthOf candle.timestamp ≠ monthOf prevCandle.timestamp then
    { s with
      monthlyReturns := s.monthlyReturns ++
        [(monthOf prevCandle.timestamp, (s.balance - s.lastMonthBalance) / s.lastMonthBalance * 100)],
      lastMonthBalance := s.balance }
  else s

/-- The `(closePosition, exitPrice)` pair computed at lines 295-335:
`exitPrice` starts at `candle.close`, the stop-loss checks run first, the
take-profit checks only under `if (!closePosition)`, the trend-reversal checks
last; the sequential flag updates are equivalent to this first-match chain.
The lookups use `closes.length`, where `closes` is the `map` of the candle
closes (lines 253, 274-279). -/
def exitDecision (inp : SimInput) (position : Position) (i : ℕ) : Bool × ℚ :=
  let candle := inp.historicalData.getD i defaultCandle
  let closesLen := (inp.historicalData.map Candle.close).length
  let rsi := indicatorAt inp.rsiValues closesLen (i : ℤ)
  let shortEma := indicatorAt inp.emaShort closesLen (i : ℤ)
  let longEma := indicatorAt inp.emaLong closesLen (i : ℤ)
  let prevShortEma := indicatorAt inp.emaShort closesLen ((i : ℤ) - 1)
  let prevLongEma := indicatorAt inp.emaLong closesLen ((i : ℤ) - 1)
  if position.side = Side.BUY ∧ candle.low ≤ position.stopLoss then
    (true, position.stopLoss)
  else if position.side = Side.SELL ∧ position.stopLoss ≤ candle.high then
    (true, position.stopLoss)
  else if position.side = Side.BUY ∧ position.takeProfit ≤ candle.high then
    (true, position.takeProfit)
  else if position.side = Side.SELL ∧ candle.low ≤ position.takeProfit then
    (true, position.takeProfit)
  else if position.side = Side.BUY ∧ oGt prevShortEma prevLongEma ∧
      oLt shortEma longEma ∧ oGt rsi (some rsiOverbought) then
    (true, candle.close)
  else if position.side = Side.SELL ∧ oLt prevShortEma prevLongEma ∧
      oGt shortEma longEma ∧ oLt rsi (some rsiOversold) then
    (true, candle.close)
  else (false, candle.close)

def closeUpdate (inp : SimInput) (s : SimState) (i : ℕ) : SimState :=
  match s.position with
  | none => s
  | some position =>
    let candle := inp.historicalData.getD i defaultCandle
    let dec := exitDecision inp position i
    if dec.1 then
      let exitPrice := dec.2
      let profit :=
        if position.side = Side.BUY then position.size * (exitPrice - position.entryPrice)
        else position.size * (position.entryPrice - exitPrice)
      let newBalance := s.balance + profit
      { s with
        balance := newBalance
        equity := newBalance
        trades := s.trades ++
          [{ entryDate := position.entryDate
             entryPrice := position.entryPrice
             exitDate := candle.timestamp
             exitPrice := exitPrice
             side := position.side
             profit := profit
             profitPercent := profit / (position.size * position.entryPrice) * 100
             duration := ((candle.timestamp - position.timestamp : ℤ) : ℚ) / 3600000 }]
        position := none }
    else s

/-- Lines 373-384: running-peak and drawdown bookkeeping, then the equity
sample pushed onto the curve; happens on every evaluated bar. -/
def drawdownUpdate (s : SimState) : SimState :=
  let maxBalance := if s.maxBalance < s.equity then s.equity else s.maxBalance
  let currentDrawdown := maxBalance - s.equity
  let maxDrawdown := if s.maxDrawdown < currentDrawdown then currentDrawdown else s.maxDrawdown
  { s with
    maxBalance := maxBalance
    maxDrawdown := maxDrawdown
    equityCurve := s.equityCurve ++ [s.equity] }

/-- Lines 386-440: entry evaluation, run whenever `position` is null at this
point of the bar — including when it was just closed earlier in the same bar. -/
def entryUpdate (inp : SimInput) (s : SimState) (i : ℕ) : SimState :=
  if s.position = none then
    let candle := inp.historicalData.getD i defaultCandle
    let closesLen := (inp.historicalData.map Candle.close).length
    let rsi := indicatorAt inp.rsiValues closesLen (i : ℤ)
    let shortEma := indicatorAt inp.emaShort closesLen (i : ℤ)
    let longEma := indicatorAt inp.emaLong closesLen (i : ℤ)
    let prevShortEma := indicatorAt inp.emaShort closesLen ((i : ℤ) - 1)
    let prevLongEma := indicatorAt inp.emaLong closesLen ((i : ℤ) - 1)
    if oLt prevShortEma prevLongEma ∧ oGt shortEma longEma ∧ oLt rsi (some rsiOversold) then
      let positionSize := s.balance * inp.positionSizePercent / 100 / candle.close
      let entryPrice := candle.close
      let p : Position :=
        { side := Side.BUY
          entryPrice := entryPrice
          stopLoss := entryPrice * (1 - inp.stopLossPercent / 100)
          takeProfit := entryPrice * (1 + inp.takeProfitPercent / 100)
          size := positionSize
          entryDate := candle.timestamp
          timestamp := candle.timestamp }
      { s with position := some p }
    else if oGt prevShortEma prevLongEma ∧ oLt shortEma longEma ∧ oGt rsi (some rsiOverbought) then
      let positionSize := s.balance * inp.positionSizePercent / 100 / candle.close
      let entryPrice := candle.close
      let p : Position :=
        { side := Side.SELL
          entryPrice := entryPrice
          stopLoss := entryPrice * (1 + inp.stopLossPercent / 100)
          takeProfit := entryPrice * (1 - inp.takeProfitPercent / 100)
          size := positionSize
          entryDate := candle.timestamp
          timestamp := candle.timestamp }
      { s with position := some p }
    else s
  else s

/-- One iteration of the bar loop (lines 262-441): month bookkeeping, exit
evaluation, drawdown/equity-curve update, then entry evaluation. -/
def simStep (inp : SimInput) (monthOf : ℤ → ℤ) (s : SimState) (i : ℕ) : SimState :=
  let candle := inp.historicalData.getD i defaultCandle
  let prevCandle := inp.historicalData.getD (i - 1) defaultCandle
  entryUpdate inp (drawdownUpdate (closeUpdate inp (monthlyUpdate monthOf s candle prevCandle) i)) i

/-- The loop index range: `for (let i = Math.max(emaLongPeriod, rsiPeriod) + 1;
i < historicalData.length; i++)`. -/
def simRange (n : ℕ) : List ℕ :=
  List.range' (Nat.max emaLongPeriod rsiPeriod + 1) (n - (Nat.max emaLongPeriod rsiPeriod + 1))

/-- The loop-local state as initialised at lines 231-243. -/
def initState (inp : SimInput) : SimState :=
  { balance := inp.initialBalance
    equity := inp.initialBalance
    position := none
    trades := []
    equityCurve := [inp.initialBalance]
    monthlyReturns := []
    maxBalance := inp.initialBalance
    maxDrawdown := 0
    lastMonthBalance := inp.initialBalance }

/-- The state after the whole bar loop. -/
def finalState (inp : SimInput) (monthOf : ℤ → ℤ) : SimState :=
  (simRange inp.historicalData.length).foldl (simStep inp monthOf) (initState inp)

/-- Lines 443-470: if a position is still open after the last bar it is
force-closed at the last candle's closing price; note that `balance` is
updated and the trade recorded, but neither `equity` nor the equity curve. -/
def forceClose (inp : SimInput) (s : SimState) : SimState :=
  match s.position with
  | none => s
  | some position =>
    let lastCandle := inp.historicalData.getD (inp.historicalData.length - 1) defaultCandle
    let exitPrice := lastCandle.close
    let profit :=
      if position.side = Side.BUY then position.size * (exitPrice - position.entryPrice)
      else position.size * (position.entryPrice - exitPrice)
    { s with
      balance := s.balance + profit
      trades := s.trades ++
        [{ entryDate := position.entryDate
           entryPrice := position.entryPrice
           exitDate := lastCandle.timestamp
           exitPrice := exitPrice
           side := position.side
           profit := profit
           profitPercent := profit / (position.size * position.entryPrice) * 100
           duration := ((lastCandle.timestamp - position.timestamp : ℤ) : ℚ) / 3600000 }] }

/-- Lines 481-499: group the candles by calendar day (`dayOf`) and take the
relative equity change between consecutive day groups. -/
def dailyReturnsOf (dayOf : ℤ → ℤ) (data : List Candle) (equityCurve : List ℚ)
    (initialBalance : ℚ) : List ℚ :=
  (((List.range data.length)).foldl
    (fun (st : List ℚ × ℚ × Option ℤ) (i : ℕ) =>
      let day := dayOf ((data.getD i defaultCandle).timestamp)
      if some day ≠ st.2.2 then
        match st.2.2 with
        | none => (st.1, st.2.1, some day)
        | some _ =>
          let equityIndex := Nat.min i (equityCurve.length - 1)
          let e := equityCurve.getD equityIndex 0
          (st.1 ++ [(e - st.2.1) / st.2.1], e, some day)
      else st)
    ([], initialBalance, none)).1

/-- The `BacktestResult` dto, restricted to the numeric/trade fields the
claims concern (`symbol`, `period` and the ISO date strings are omitted;
`sharpeRatio` is named `sharpe`). -/
structure BacktestResult where
  initialBalance : ℚ
  finalBalance : ℚ
  totalProfit : ℚ
  profitPercent : ℚ
  totalTrades : ℕ
  winningTrades : ℕ
  losingTrades : ℕ
  winRate : ℚ
  maxDrawdown : ℚ
  maxDrawdownPercent : ℚ
  sharpe : ℚ
  trades : List Trade
  monthlyReturns : List (ℤ × ℚ)
  equityCurve : List ℚ
  deriving DecidableEq, Repr

/-- Lines 443-532: force-close, then the metric computations and the result
record. JS `x || 0` guards (NaN from 0/0 collapsing to 0) are modelled by
explicit emptiness tests; `stdDev = Math.sqrt(variance) || 0.00001`. -/
def backtestResult (inp : SimInput) (monthOf dayOf : ℤ → ℤ) (sqrtFn : ℚ → ℚ) : BacktestResult :=
  let endState := forceClose inp (finalState inp monthOf)
  let balance := endState.balance
  let trades := endState.trades
  let totalProfit := balance - inp.initialBalance
  let profitPercent := totalProfit / inp.initialBalance * 100
  let winningTrades := (trades.filter fun t => decide (0 < t.profit)).length
  let winRate := if trades.length = 0 then 0 else ((winningTrades : ℚ) / (trades.length : ℚ)) * 100
  let maxDrawdownPercent := endState.maxDrawdown / endState.maxBalance * 100
  let dailyReturns := dailyReturnsOf dayOf inp.historicalData endState.equityCurve inp.initialBalance
  let avgReturn :=
    if dailyReturns.length = 0 then 0
    else dailyReturns.foldl (· + ·) 0 / (dailyReturns.length : ℚ)
  let variance :=
    if dailyReturns.length = 0 then 0
    else dailyReturns.foldl (fun sum r => sum + (r - avgReturn) ^ 2) 0 / (dailyReturns.length : ℚ)
  let stdDev := if sqrtFn variance = 0 then 1 / 100000 else sqrtFn variance
  let riskFreeRate := (2 / 100 : ℚ) / 365
  { initialBalance := inp.initialBalance
    finalBalance := balance
    totalProfit := totalProfit
    profitPercent := profitPercent
    totalTrades := trades.length
    winningTrades := winningTrades
    losingTrades := trades.length - winningTrades
    winRate := winRate
    maxDrawdown := endState.maxDrawdown
    maxDrawdownPercent := maxDrawdownPercent
    sharpe := (avgReturn - riskFreeRate) / stdDev * sqrtFn 365
    trades := trades
    monthlyReturns := endState.monthlyReturns
    equityCurve := endState.equityCurve }

/-- `runBacktest` (lines 211-541): throws (`none`) when the fetched series is
empty, otherwise runs the simulation and returns the result. -/
def runBacktest (inp : SimInput) (monthOf dayOf : ℤ → ℤ) (sqrtFn : ℚ → ℚ) :
    Option BacktestResult :=
  if inp.historicalData.length = 0 then none
  else some (backtestResult inp monthOf dayOf sqrtFn)

/-! ### Parameter optimizer (`optimizeStrategy`, lines 646-731) -/

/-- The swept grid values of lines 657-659 (the rsi/ema grids declared at
lines 660-664 are never used by the loops). -/
def positionSizes : List ℚ := [1, 2, 5, 10]

def stopLosses : List ℚ := [1 / 2, 1, 3 / 2, 2]

def takeProfits : List ℚ := [1, 2, 3, 4]

/-- The retained best grid point: the spread of the backtest result together
with the `parameters` record and the composite `score` (lines 707-715). -/
structure OptBest where
  result : BacktestResult
  positionSize : ℚ
  stopLoss : ℚ
  takeProfit : ℚ
  score : ℚ
  deriving DecidableEq, Repr

/-- The composite score of lines 690-694:
`2×profitPercent − 3×maxDrawdownPercent + 10×sharpeRatio + 0.5×winRate`. -/
def compositeScore (r : BacktestResult) : ℚ :=
  r.profitPercent * 2 - r.maxDrawdownPercent * 3 + r.sharpe * 10 + r.winRate * (1 / 2)

/-- The candidate built from one grid point. -/
def mkBest (runFn : ℚ → ℚ → ℚ → BacktestResult) (gp : ℚ × ℚ × ℚ) : OptBest :=
  { result := runFn gp.1 gp.2.1 gp.2.2
    positionSize := gp.1
    stopLoss := gp.2.1
    takeProfit := gp.2.2
    score := compositeScore (runFn gp.1 gp.2.1 gp.2.2) }

/-- Score of one grid point. -/
def gpScore (runFn : ℚ → ℚ → ℚ → BacktestResult) (gp : ℚ × ℚ × ℚ) : ℚ :=
  compositeScore (runFn gp.1 gp.2.1 gp.2.2)

/-- Lines 704-718: `if (score > bestScore)` replace the best; `bestScore`
starts at `-Infinity` (the `none` accumulator), so the first point is always
taken and ties keep the earlier point. -/
def optStep (runFn : ℚ → ℚ → ℚ → BacktestResult) (acc : Option OptBest) (gp : ℚ × ℚ × ℚ) :
    Option OptBest :=
  match acc with
  | none => some (mkBest runFn gp)
  | some b => if b.score < gpScore runFn gp then some (mkBest runFn gp) else some b

/-- The per-combination simulation run of lines 677-686: `runBacktest` with the
same symbol/timeframe/range/balance and the grid point's three parameters. -/
def optRunFn (data : List Candle) (rsi emaS emaL : List ℚ) (initialBalance : ℚ)
    (monthOf dayOf : ℤ → ℤ) (sqrtFn : ℚ → ℚ) : ℚ → ℚ → ℚ → BacktestResult :=
  fun positionSize stopLoss takeProfit =>
    backtestResult
      { historicalData := data
        rsiValues := rsi
        emaShort := emaS
        emaLong := emaL
        initialBalance := initialBalance
        positionSizePercent := positionSize
        stopLossPercent := stopLoss
        takeProfitPercent := takeProfit } monthOf dayOf sqrtFn

/-- The three nested grid loops of lines 671-721. -/
def optimizeCore (runFn : ℚ → ℚ → ℚ → BacktestResult) : Option OptBest :=
  positionSizes.foldl
    (fun acc positionSize =>
      stopLosses.foldl
        (fun acc stopLoss =>
          takeProfits.foldl
            (fun acc takeProfit => optStep runFn acc (positionSize, stopLoss, takeProfit)) acc)
        acc)
    none

/-- `optimizeStrategy`: every inner `runBacktest` throws exactly when the
fetched candle series is empty, and the error propagates out of the sweep. -/
def optimizeStrategy (data : List Candle) (rsi emaS emaL : List ℚ) (initialBalance : ℚ)
    (monthOf dayOf : ℤ → ℤ) (sqrtFn : ℚ → ℚ) : Option OptBest :=
  if data.length = 0 then none
  else optimizeCore (optRunFn data rsi emaS emaL initialBalance monthOf dayOf sqrtFn)

/-- The grid in iteration order of the nested loops. -/
def gridPoints : List (ℚ × ℚ × ℚ) :=
  positionSizes.flatMap fun positionSize =>
    stopLosses.flatMap fun stopLoss =>
      takeProfits.map fun takeProfit => (positionSize, stopLoss, takeProfit)

/-! ### Robustness validator (`validateStrategyRobustness`, lines 736-827) -/

/-- The per-window record pushed at lines 770-777 (the `period` label string is
omitted). -/
structure WindowRun where
  profitPercent : ℚ
  trades : ℕ
  winRate : ℚ
  maxDrawdownPercent : ℚ
  sharpe : ℚ
  deriving DecidableEq, Repr

/-- The `summary` object of lines 813-821. -/
structure RobustnessSummary where
  avgProfitPercent : ℚ
  profitStdDev : ℚ
  avgWinRate : ℚ
  avgDrawdown : ℚ
  profitableMonths : ℕ
  profitableMonthsPercent : ℚ
  robustnessFactor : ℚ
  deriving DecidableEq, Repr

/-- Lines 752-822: one independent backtest per trailing month window `i = 1 ..
lookbackMonths` (the window run itself — a fetch plus `runBacktest` with a
fixed 10000 balance — is the parameter `runWindow`), then the aggregation of
the per-window results. `Math.sqrt` is the parameter `sqrtFn`; the JS
`profitStdDev || 1` divisor guard is the `= 0` test. -/
def validateStrategyRobustness (runWindow : ℕ → WindowRun) (lookbackMonths : ℕ)
    (sqrtFn : ℚ → ℚ) : RobustnessSummary :=
  let results := (List.range' 1 lookbackMonths).map runWindow
  let profitPercents := results.map WindowRun.profitPercent
  let avgProfit := profitPercents.foldl (· + ·) 0 / (profitPercents.length : ℚ)
  let profitStdDev := sqrtFn
    (profitPercents.foldl (fun sum p => sum + (p - avgProfit) ^ 2) 0 / (profitPercents.length : ℚ))
  let winRates := results.map WindowRun.winRate
  let avgWinRate := winRates.foldl (· + ·) 0 / (winRates.length : ℚ)
  let drawdowns := results.map WindowRun.maxDrawdownPercent
  let avgDrawdown := drawdowns.foldl (· + ·) 0 / (drawdowns.length : ℚ)
  let profitableMonths := (profitPercents.filter fun p => decide (0 < p)).length
  let profitableMonthsPercent := (profitableMonths : ℚ) / (lookbackMonths : ℚ) * 100
  let robustnessFactor :=
    (if 0 < avgProfit then 1 else 0) *
      (avgProfit / (if profitStdDev = 0 then 1 else profitStdDev)) *
      (profitableMonthsPercent / 100)
  { avgProfitPercent := avgProfit
    profitStdDev := profitStdDev
    avgWinRate := avgWinRate
    avgDrawdown := avgDrawdown
    profitableMonths := profitableMonths
    profitableMonthsPercent := profitableMonthsPercent
    robustnessFactor := robustnessFactor }

/-- The robustness factor exactly as the claim (spec section 4.5) words it:
`sign(meanProfit) × (meanProfit / max(stdDevProfit, 1)) ×
(profitableMonthsPercent / 100)`, with a genuine three-valued sign. Stated
from the spec's words only, for comparison against the source formula. -/
def specRobustnessFactor (meanProfit stdDevProfit profitableMonthsPercent : ℚ) : ℚ :=
  (if 0 < meanProfit then 1 else if meanProfit = 0 then 0 else -1) *
    (meanProfit / max stdDevProfit 1) * (profitableMonthsPercent / 100)

/-- Population mean used to phrase theorems about the aggregation. -/
def meanQ (l : List ℚ) : ℚ := l.foldl (· + ·) 0 / (l.length : ℚ)

/-- Population variance used to phrase theorems about the aggregation. -/
def popVarQ (l : List ℚ) : ℚ :=
  l.foldl (fun sum p => sum + (p - meanQ l) ^ 2) 0 / (l.length : ℚ)

/-! ### Concrete instantiations of the external parameters -/

/-- Integer square root by bounded search (structurally recursive so that
concrete runs evaluate inside proofs): the largest `k ≤ n` with `k * k ≤ n`. -/
def natSqrt (n : ℕ) : ℕ :=
  (List.range (n + 1)).foldl (fun acc k => if k * k ≤ n then k else acc) 0

/-- Stand-in for `Math.sqrt`, exact on non-negative perfect-square rationals
(every concrete use below is on a perfect square). -/
def ratSqrt (q : ℚ) : ℚ := (natSqrt q.num.toNat : ℚ) / (natSqrt q.den : ℚ)

/-- Calendar-month key for the concrete runs below: all their timestamps fall
within January 1970 (at most a few days from the epoch), so the month key is
constant. -/
def monthKey : ℤ → ℤ := fun _ => 0

/-- Calendar-day key: for non-negative epoch-millisecond timestamps the UTC
day string changes exactly when `ts / 86400000` does. -/
def dayKey : ℤ → ℤ := fun t => t / 86400000

/-- A flat OHLCV bar at one-hour spacing used to build candle series. -/
def flatCandle (i : ℕ) (px : ℚ) : Candle := ⟨(i : ℤ) * 3600000, px, px, px, px, 0⟩

/-! ### Concrete runs used by the counterexamples and witnesses

Indicator series lengths follow the `technicalindicators` contract: over `n`
closes, RSI(14) emits `n - 14` values, EMA(9) emits `n - 8`, EMA(21) emits
`n - 20`. Due to the lookup `series[i - (series.length - closes.length)]`
(lines 274-279) the value read at bar `i` is the element at array index
`i + (closes.length - series.length)`, so the series below place their
distinguished values at those shifted indices. -/

/-- 70 bars: flat at 100 through bar 22, a dip bar at 23 (low 98.5), then flat
at 99. -/
def c2Candles : List Candle :=
  (List.range 70).map fun i =>
    if i = 23 then ⟨23 * 3600000, 199 / 2, 499 / 5, 197 / 2, 199 / 2, 0⟩
    else if i ≤ 22 then flatCandle i 100
    else flatCandle i 99

def c2Rsi : List ℚ :=
  (List.range 56).map fun j => if j = 36 then 25 else if j = 37 then 75 else 50

def c2EmaS : List ℚ := (List.range 62).map fun j => if j = 30 then 110 else 90

def c2EmaL : List ℚ := List.replicate 50 100

/-- Run in which a LONG entry at bar 22 is stopped out at bar 23 while the
same bar 23 satisfies the SHORT entry conditions. -/
def c2Input : SimInput :=
  { historicalData := c2Candles
    rsiValues := c2Rsi
    emaShort := c2EmaS
    emaLong := c2EmaL
    initialBalance := 10000
    positionSizePercent := 5
    stopLossPercent := 1
    takeProfitPercent := 2 }

/-- 66 bars: a losing stop-out at bar 23 followed by a winning take-profit at
bar 25, so the equity peak grows after the maximum drawdown was recorded. -/
def c5Candles : List Candle :=
  (List.range 66).map fun i =>
    if i = 23 then ⟨23 * 3600000, 199 / 2, 499 / 5, 197 / 2, 199 / 2, 0⟩
    else if i = 25 then ⟨25 * 3600000, 205 / 2, 205 / 2, 101, 203 / 2, 0⟩
    else flatCandle i 100

def c5Rsi : List ℚ :=
  (List.range 52).map fun j => if j = 36 ∨ j = 38 then 25 else 50

def c5EmaS : List ℚ := (List.range 58).map fun j => if j = 30 ∨ j = 32 then 110 else 90

def c5EmaL : List ℚ := List.replicate 46 100

def c5Input : SimInput :=
  { historicalData := c5Candles
    rsiValues := c5Rsi
    emaShort := c5EmaS
    emaLong := c5EmaL
    initialBalance := 10000
    positionSizePercent := 5
    stopLossPercent := 1
    takeProfitPercent := 2 }

/-- 63 bars: a LONG entry at bar 22 that is never exited during the loop and
is force-closed at the last bar's close 101. -/
def c6Candles : List Candle :=
  (List.range 63).map fun i =>
    if i ≤ 22 then flatCandle i 100
    else if i = 62 then flatCandle i 101
    else flatCandle i (201 / 2)

def c6Rsi : List ℚ := (List.range 49).map fun j => if j = 36 then 25 else 50

def c6EmaS : List ℚ := (List.range 55).map fun j => if j = 30 then 110 else 90

def c6EmaL : List ℚ := List.replicate 43 100

def c6Input : SimInput :=
  { historicalData := c6Candles
    rsiValues := c6Rsi
    emaShort := c6EmaS
    emaLong := c6EmaL
    initialBalance := 10000
    positionSizePercent := 5
    stopLossPercent := 1
    takeProfitPercent := 2 }

/-- 5 bars: non-empty but shorter than the 22-bar warm-up, so the bar loop
never runs; with 5 closes the indicator library emits empty series. -/
def c3Candles : List Candle := (List.range 5).map fun i => flatCandle i 100

def c3Input : SimInput :=
  { historicalData := c3Candles
    rsiValues := []
    emaShort := []
    emaLong := []
    initialBalance := 10000
    positionSizePercent := 5
    stopLossPercent := 1
    takeProfitPercent := 2 }

/-- 3 bars, used by witnesses: the loop never runs, every metric degenerates. -/
def tinyCandles : List Candle := (List.range 3).map fun i => flatCandle i 100

def tinyInput : SimInput :=
  { historicalData := tinyCandles
    rsiValues := []
    emaShort := []
    emaLong := []
    initialBalance := 10000
    positionSizePercent := 5
    stopLossPercent := 1
    takeProfitPercent := 2 }

/-- RSI series whose entry at array index `j` is the value `j`, aligned to
candle `j + 14` under the RSI(14) warm-up of a 70-candle series. -/
def c1Series : List ℚ := (List.range 56).map fun j => (j : ℚ)

/-- Two robustness windows with profit percents 2 and 1: mean 3/2, population
standard deviation 1/2. -/
def c7Window : ℕ → WindowRun :=
  fun i => if i = 1 then ⟨2, 3, 50, 1, 0⟩ else ⟨1, 2, 40, 1, 0⟩

/-- The profit-percent list collected over the trailing windows. -/
def windowProfits (runWindow : ℕ → WindowRun) (lookbackMonths : ℕ) : List ℚ :=
  ((List.range' 1 lookbackMonths).map runWindow).map WindowRun.profitPercent

/-- Percentage of profitable windows, as computed at lines 795-796. -/
def profitableMonthsPercentOf (runWindow : ℕ → WindowRun) (lookbackMonths : ℕ) : ℚ :=
  ((((windowProfits runWindow lookbackMonths).filter fun p => decide (0 < p)).length : ℕ) : ℚ) /
    (lookbackMonths : ℚ) * 100

/-- 24 bars whose last bar touches both a LONG stop at 99 and a LONG target at
102 (and both a SHORT stop at 101 and a SHORT target at 98). -/
def c4Candles : List Candle :=
  (List.range 24).map fun i =>
    if i = 23 then ⟨23 * 3600000, 100, 103, 98, 101, 0⟩ else flatCandle i 100

def c4Input : SimInput :=
  { historicalData := c4Candles
    rsiValues := []
    emaShort := []
    emaLong := []
    initialBalance := 10000
    positionSizePercent := 5
    stopLossPercent := 1
    takeProfitPercent := 2 }

def c4BuyState : SimState :=
  { balance := 10000
    equity := 10000
    position := some ⟨Side.BUY, 100, 99, 102, 5, 0, 0⟩
    trades := []
    equityCurve := [10000]
    monthlyReturns := []
    maxBalance := 10000
    maxDrawdown := 0
    lastMonthBalance := 10000 }

def c4SellState : SimState :=
  { balance := 10000
    equity := 10000
    position := some ⟨Side.SELL, 100, 101, 98, 5, 0, 0⟩
    trades := []
    equityCurve := [10000]
    monthlyReturns := []
    maxBalance := 10000
    maxDrawdown := 0
    lastMonthBalance := 10000 }

/-- The loop state just before bar 23 of the `c2Input` run: a LONG position
opened at bar 22 at price 100 (stop 99, target 102). -/
def c2State : SimState :=
  { balance := 10000
    equity := 10000
    position := some ⟨Side.BUY, 100, 99, 102, 5, 79200000, 79200000⟩
    trades := []
    equityCurve := [10000, 10000]
    monthlyReturns := []
    maxBalance := 10000
    maxDrawdown := 0
    lastMonthBalance := 10000 }

/-! ## Helper lemmas -/

theorem oGt_imp_not_oLt {a b : Option ℚ} (h : oGt a b = true) : oLt a b = false := by
  cases a <;> cases b <;> simp_all [oGt, oLt]
  exact le_of_lt h

theorem ite_lt_eq_max (a b : ℚ) : (if a < b then b else a) = max a b := by
  rcases lt_or_ge a b with h | h
  · rw [if_pos h]
    exact (max_eq_right h.le).symm
  · rw [if_neg (not_lt.2 h)]
    exact (max_eq_left h).symm

theorem monthlyUpdate_balance (m : ℤ → ℤ) (s : SimState) (c p : Candle) :
    (monthlyUpdate m s c p).balance = s.balance := by
  unfold monthlyUpdate; repeat' split
  all_goals rfl

theorem monthlyUpdate_equity (m : ℤ → ℤ) (s : SimState) (c p : Candle) :
    (monthlyUpdate m s c p).equity = s.equity := by
  unfold monthlyUpdate; repeat' split
  all_goals rfl

theorem monthlyUpdate_position (m : ℤ → ℤ) (s : SimState) (c p : Candle) :
    (monthlyUpdate m s c p).position = s.position := by
  unfold monthlyUpdate; repeat' split
  all_goals rfl

theorem monthlyUpdate_trades (m : ℤ → ℤ) (s : SimState) (c p : Candle) :
    (monthlyUpdate m s c p).trades = s.trades := by
  unfold monthlyUpdate; repeat' split
  all_goals rfl

theorem monthlyUpdate_equityCurve (m : ℤ → ℤ) (s : SimState) (c p : Candle) :
    (monthlyUpdate m s c p).equityCurve = s.equityCurve := by
  unfold monthlyUpdate; repeat' split
  all_goals rfl

theorem monthlyUpdate_maxBalance (m : ℤ → ℤ) (s : SimState) (c p : Candle) :
    (monthlyUpdate m s c p).maxBalance = s.maxBalance := by
  unfold monthlyUpdate; repeat' split
  all_goals rfl

theorem closeUpdate_equityCurve (inp : SimInput) (s : SimState) (i : ℕ) :
    (closeUpdate inp s i).equityCurve = s.equityCurve := by
  unfold closeUpdate
  dsimp only
  repeat' split
  all_goals rfl

theorem closeUpdate_maxBalance (inp : SimInput) (s : SimState) (i : ℕ) :
    (closeUpdate inp s i).maxBalance = s.maxBalance := by
  unfold closeUpdate
  dsimp only
  repeat' split
  all_goals rfl

theorem closeUpdate_eqbal (inp : SimInput) (s : SimState) (i : ℕ)
    (h : s.equity = s.balance) :
    (closeUpdate inp s i).equity = (closeUpdate inp s i).balance := by
  unfold closeUpdate
  dsimp only
  repeat' split
  all_goals first | rfl | exact h

theorem drawdownUpdate_equityCurve (s : SimState) :
    (drawdownUpdate s).equityCurve = s.equityCurve ++ [s.equity] := rfl

theorem drawdownUpdate_equity (s : SimState) : (drawdownUpdate s).equity = s.equity := rfl

theorem drawdownUpdate_balance (s : SimState) : (drawdownUpdate s).balance = s.balance := rfl

theorem drawdownUpdate_position (s : SimState) : (drawdownUpdate s).position = s.position := rfl

theorem drawdownUpdate_trades (s : SimState) : (drawdownUpdate s).trades = s.trades := rfl

theorem drawdownUpdate_maxBalance (s : SimState) :
    (drawdownUpdate s).maxBalance = max s.maxBalance s.equity := by
  show (if s.maxBalance < s.equity then s.equity else s.maxBalance) = _
  exact ite_lt_eq_max s.maxBalance s.equity

theorem entryUpdate_balance (inp : SimInput) (s : SimState) (i : ℕ) :
    (entryUpdate inp s i).balance = s.balance := by
  unfold entryUpdate
  dsimp only
  repeat' split
  all_goals rfl

theorem entryUpdate_equity (inp : SimInput) (s : SimState) (i : ℕ) :
    (entryUpdate inp s i).equity = s.equity := by
  unfold entryUpdate
  dsimp only
  repeat' split
  all_goals rfl

theorem entryUpdate_equityCurve (inp : SimInput) (s : SimState) (i : ℕ) :
    (entryUpdate inp s i).equityCurve = s.equityCurve := by
  unfold entryUpdate
  dsimp only
  repeat' split
  all_goals rfl

theorem entryUpdate_maxBalance (inp : SimInput) (s : SimState) (i : ℕ) :
    (entryUpdate inp s i).maxBalance = s.maxBalance := by
  unfold entryUpdate
  dsimp only
  repeat' split
  all_goals rfl

theorem entryUpdate_trades (inp : SimInput) (s : SimState) (i : ℕ) :
    (entryUpdate inp s i).trades = s.trades := by
  unfold entryUpdate
  dsimp only
  repeat' split
  all_goals rfl

theorem forceClose_equityCurve (inp : SimInput) (s : SimState) :
    (forceClose inp s).equityCurve = s.equityCurve := by
  unfold forceClose
  dsimp only
  repeat' split
  all_goals rfl

theorem forceClose_maxBalance (inp : SimInput) (s : SimState) :
    (forceClose inp s).maxBalance = s.maxBalance := by
  unfold forceClose
  dsimp only
  repeat' split
  all_goals rfl

theorem forceClose_maxDrawdown (inp : SimInput) (s : SimState) :
    (forceClose inp s).maxDrawdown = s.maxDrawdown := by
  unfold forceClose
  dsimp only
  repeat' split
  all_goals rfl

theorem forceClose_of_none (inp : SimInput) (s : SimState) (h : s.position = none) :
    forceClose inp s = s := by
  unfold forceClose
  rw [h]

theorem simStep_equityCurve (inp : SimInput) (m : ℤ → ℤ) (s : SimState) (i : ℕ) :
    (simStep inp m s i).equityCurve = s.equityCurve ++ [(simStep inp m s i).equity] := by
  unfold simStep
  dsimp only
  rw [entryUpdate_equityCurve, entryUpdate_equity, drawdownUpdate_equityCurve,
    drawdownUpdate_equity, closeUpdate_equityCurve, monthlyUpdate_equityCurve]

theorem simStep_maxBalance (inp : SimInput) (m : ℤ → ℤ) (s : SimState) (i : ℕ) :
    (simStep inp m s i).maxBalance = max s.maxBalance ((simStep inp m s i).equity) := by
  unfold simStep
  dsimp only
  rw [entryUpdate_maxBalance, entryUpdate_equity, drawdownUpdate_maxBalance,
    drawdownUpdate_equity, closeUpdate_maxBalance, monthlyUpdate_maxBalance]

theorem simStep_eqbal (inp : SimInput) (m : ℤ → ℤ) (s : SimState) (i : ℕ)
    (h : s.equity = s.balance) :
    (simStep inp m s i).equity = (simStep inp m s i).balance := by
  unfold simStep
  dsimp only
  rw [entryUpdate_equity, entryUpdate_balance, drawdownUpdate_equity, drawdownUpdate_balance]
  refine closeUpdate_eqbal inp _ i ?_
  rw [monthlyUpdate_equity, monthlyUpdate_balance]
  exact h

/-- The running peak equals the running maximum of the equity curve, preserved
through the whole bar loop. -/
theorem foldl_maxBalance_inv (inp : SimInput) (m : ℤ → ℤ) (b0 : ℚ) :
    ∀ (is : List ℕ) (s : SimState), s.maxBalance = s.equityCurve.foldl max b0 →
      (is.foldl (simStep inp m) s).maxBalance =
        (is.foldl (simStep inp m) s).equityCurve.foldl max b0 := by
  intro is
  induction is with
  | nil => intro s h; exact h
  | cons i is ih =>
    intro s h
    rw [List.foldl_cons]
    apply ih
    rw [simStep_maxBalance, simStep_equityCurve, List.foldl_append, ← h]
    rfl

/-- Equity stays the realized balance and the last curve sample stays the
current equity, preserved through the whole bar loop. -/
theorem foldl_last_balance_inv (inp : SimInput) (m : ℤ → ℤ) :
    ∀ (is : List ℕ) (s : SimState),
      s.equity = s.balance → s.equityCurve.getLast? = some s.equity →
      (is.foldl (simStep inp m) s).equity = (is.foldl (simStep inp m) s).balance ∧
        (is.foldl (simStep inp m) s).equityCurve.getLast? =
          some ((is.foldl (simStep inp m) s).equity) := by
  intro is
  induction is with
  | nil => intro s h1 h2; exact ⟨h1, h2⟩
  | cons i is ih =>
    intro s h1 h2
    rw [List.foldl_cons]
    refine ih _ (simStep_eqbal inp m s i h1) ?_
    rw [simStep_equityCurve]
    exact List.getLast?_concat _

theorem exitDecision_buy_sl (inp : SimInput) (p : Position) (i : ℕ)
    (hside : p.side = Side.BUY)
    (hsl : (inp.historicalData.getD i defaultCandle).low ≤ p.stopLoss) :
    exitDecision inp p i = (true, p.stopLoss) := by
  unfold exitDecision
  dsimp only
  rw [if_pos ⟨hside, hsl⟩]

theorem exitDecision_sell_sl (inp : SimInput) (p : Position) (i : ℕ)
    (hside : p.side = Side.SELL)
    (hsl : p.stopLoss ≤ (inp.historicalData.getD i defaultCandle).high) :
    exitDecision inp p i = (true, p.stopLoss) := by
  unfold exitDecision
  dsimp only
  rw [if_neg (fun hc => Side.noConfusion (hside.symm.trans hc.1)), if_pos ⟨hside, hsl⟩]

theorem exitDecision_buy_tp (inp : SimInput) (p : Position) (i : ℕ)
    (hside : p.side = Side.BUY)
    (hnsl : ¬ (inp.historicalData.getD i defaultCandle).low ≤ p.stopLoss)
    (htp : p.takeProfit ≤ (inp.historicalData.getD i defaultCandle).high) :
    exitDecision inp p i = (true, p.takeProfit) := by
  unfold exitDecision
  dsimp only
  rw [if_neg (fun hc => hnsl hc.2),
    if_neg (fun hc => Side.noConfusion (hside.symm.trans hc.1)), if_pos ⟨hside, htp⟩]

theorem exitDecision_sell_tp (inp : SimInput) (p : Position) (i : ℕ)
    (hside : p.side = Side.SELL)
    (hnsl : ¬ p.stopLoss ≤ (inp.historicalData.getD i defaultCandle).high)
    (htp : (inp.historicalData.getD i defaultCandle).low ≤ p.takeProfit) :
    exitDecision inp p i = (true, p.takeProfit) := by
  unfold exitDecision
  dsimp only
  rw [if_neg (fun hc => Side.noConfusion (hside.symm.trans hc.1)),
    if_neg (fun hc => hnsl hc.2),
    if_neg (fun hc => Side.noConfusion (hside.symm.trans hc.1)), if_pos ⟨hside, htp⟩]

/-- When the exit decision fires with exit price `x`, the bar appends exactly
the trade of lines 351-362 and clears the position. -/
theorem closeUpdate_of_exit (inp : SimInput) (s : SimState) (i : ℕ) (p : Position) (x : ℚ)
    (hp : s.position = some p) (hdec : exitDecision inp p i = (true, x)) :
    closeUpdate inp s i =
      { s with
        balance := s.balance +
          (if p.side = Side.BUY then p.size * (x - p.entryPrice)
            else p.size * (p.entryPrice - x))
        equity := s.balance +
          (if p.side = Side.BUY then p.size * (x - p.entryPrice)
            else p.size * (p.entryPrice - x))
        trades := s.trades ++
          [{ entryDate := p.entryDate
             entryPrice := p.entryPrice
             exitDate := (inp.historicalData.getD i defaultCandle).timestamp
             exitPrice := x
             side := p.side
             profit :=
               (if p.side = Side.BUY then p.size * (x - p.entryPrice)
                 else p.size * (p.entryPrice - x))
             profitPercent :=
               (if p.side = Side.BUY then p.size * (x - p.entryPrice)
                 else p.size * (p.entryPrice - x)) / (p.size * p.entryPrice) * 100
             duration :=
               (((inp.historicalData.getD i defaultCandle).timestamp - p.timestamp : ℤ) : ℚ) /
                 3600000 }]
        position := none } := by
  unfold closeUpdate
  rw [hp]
  dsimp only
  rw [hdec]
  rfl

theorem entryUpdate_of_sell (inp : SimInput) (s : SimState) (i : ℕ)
    (hp : s.position = none)
    (h4 : oGt (indicatorAt inp.emaShort (inp.historicalData.map Candle.close).length ((i : ℤ) - 1))
        (indicatorAt inp.emaLong (inp.historicalData.map Candle.close).length ((i : ℤ) - 1)) = true)
    (h5 : oLt (indicatorAt inp.emaShort (inp.historicalData.map Candle.close).length (i : ℤ))
        (indicatorAt inp.emaLong (inp.historicalData.map Candle.close).length (i : ℤ)) = true)
    (h6 : oGt (indicatorAt inp.rsiValues (inp.historicalData.map Candle.close).length (i : ℤ))
        (some rsiOverbought) = true) :
    (entryUpdate inp s i).position = some
      { side := Side.SELL
        entryPrice := (inp.historicalData.getD i defaultCandle).close
        stopLoss := (inp.historicalData.getD i defaultCandle).close * (1 + inp.stopLossPercent / 100)
        takeProfit :=
          (inp.historicalData.getD i defaultCandle).close * (1 - inp.takeProfitPercent / 100)
        size := s.balance * inp.positionSizePercent / 100 /
          (inp.historicalData.getD i defaultCandle).close
        entryDate := (inp.historicalData.getD i defaultCandle).timestamp
        timestamp := (inp.historicalData.getD i defaultCandle).timestamp } := by
  unfold entryUpdate
  rw [if_pos hp]
  dsimp only
  rw [if_neg (fun hc => Bool.noConfusion ((oGt_imp_not_oLt h4).symm.trans hc.1)),
    if_pos ⟨h4, h5, h6⟩]

/-- Any bar whose exit decision fires appends exactly one trade with the
decided exit price (monthly bookkeeping, drawdown bookkeeping and the entry
check never touch the trade log). -/
theorem simStep_trades_of_exit (inp : SimInput) (m : ℤ → ℤ) (s : SimState) (i : ℕ)
    (p : Position) (x : ℚ) (hp : s.position = some p)
    (hdec : exitDecision inp p i = (true, x)) :
    ((simStep inp m s i).trades.getLast?).map Trade.exitPrice = some x ∧
      ((simStep inp m s i).trades.getLast?).map Trade.exitDate =
        some (inp.historicalData.getD i defaultCandle).timestamp ∧
      (simStep inp m s i).trades.length = s.trades.length + 1 := by
  have hmp : (monthlyUpdate m s (inp.historicalData.getD i defaultCandle)
      (inp.historicalData.getD (i - 1) defaultCandle)).position = some p := by
    rw [monthlyUpdate_position]; exact hp
  have hc := closeUpdate_of_exit inp
    (monthlyUpdate m s (inp.historicalData.getD i defaultCandle)
      (inp.historicalData.getD (i - 1) defaultCandle)) i p x hmp hdec
  unfold simStep
  dsimp only
  rw [entryUpdate_trades, drawdownUpdate_trades, hc]
  dsimp only
  rw [monthlyUpdate_trades, List.getLast?_concat]
  refine ⟨rfl, rfl, ?_⟩
  rw [List.length_append]
  rfl

/-- `optStep` keeps the running best: the fold's result dominates every seen
score, and it is the accumulator or the first grid point that strictly
improved on everything before it. -/
theorem foldl_optStep_spec (runFn : ℚ → ℚ → ℚ → BacktestResult) :
    ∀ (xs : List (ℚ × ℚ × ℚ)) (b : OptBest),
      ∃ b', xs.foldl (optStep runFn) (some b) = some b' ∧
        b.score ≤ b'.score ∧
        (∀ y ∈ xs, gpScore runFn y ≤ b'.score) ∧
        (b' = b ∨ ∃ l gp r, xs = l ++ gp :: r ∧ b' = mkBest runFn gp ∧ b.score < b'.score ∧
          ∀ y ∈ l, gpScore runFn y < b'.score) := by
  intro xs
  induction xs with
  | nil =>
    intro b
    exact ⟨b, rfl, le_refl _, by simp, Or.inl rfl⟩
  | cons x xs ih =>
    intro b
    rw [List.foldl_cons]
    by_cases h : b.score < gpScore runFn x
    · have hstep : optStep runFn (some b) x = some (mkBest runFn x) := by
        unfold optStep
        dsimp only
        rw [if_pos h]
      rw [hstep]
      obtain ⟨b', hfold, hle, hall, hcase⟩ := ih (mkBest runFn x)
      have hmk : (mkBest runFn x).score = gpScore runFn x := rfl
      rw [hmk] at hle
      refine ⟨b', hfold, le_trans h.le hle, ?_, ?_⟩
      · intro y hy
        rcases List.mem_cons.1 hy with hy | hy
        · rw [hy]
          exact hle
        · exact hall y hy
      · rcases hcase with hcase | ⟨l, gp, r, hxs, hb', hlt, hl⟩
        · refine Or.inr ⟨[], x, xs, rfl, hcase, ?_, by simp⟩
          rw [hcase, hmk]
          exact h
        · rw [hmk] at hlt
          refine Or.inr ⟨x :: l, gp, r, by rw [hxs]; rfl, hb', lt_trans h hlt, ?_⟩
          intro y hy
          rcases List.mem_cons.1 hy with hy | hy
          · rw [hy]
            exact hlt
          · exact hl y hy
    · have hstep : optStep runFn (some b) x = some b := by
        unfold optStep
        dsimp only
        rw [if_neg h]
      rw [hstep]
      obtain ⟨b', hfold, hle, hall, hcase⟩ := ih b
      refine ⟨b', hfold, hle, ?_, ?_⟩
      · intro y hy
        rcases List.mem_cons.1 hy with hy | hy
        · rw [hy]
          exact le_trans (not_lt.1 h) hle
        · exact hall y hy
      · rcases hcase with hcase | ⟨l, gp, r, hxs, hb', hlt, hl⟩
        · exact Or.inl hcase
        · refine Or.inr ⟨x :: l, gp, r, by rw [hxs]; rfl, hb', hlt, ?_⟩
          intro y hy
          rcases List.mem_cons.1 hy with hy | hy
          · rw [hy]
            exact lt_of_le_of_lt (not_lt.1 h) hlt
          · exact hl y hy

/-- The nested grid loops are the fold of `optStep` over the flattened grid. -/
theorem optimizeCore_eq_foldl (runFn : ℚ → ℚ → ℚ → BacktestResult) :
    optimizeCore runFn = gridPoints.foldl (optStep runFn) none := rfl

/-- Splitting the trade log at zero profit: strict winners plus the rest. -/
theorem length_filter_profit (l : List Trade) :
    (l.filter fun t => decide (0 < t.profit)).length +
      (l.filter fun t => decide (t.profit ≤ 0)).length = l.length := by
  induction l with
  | nil => rfl
  | cons t l ih =>
    rcases lt_or_ge 0 t.profit with h | h
    · have h2 : ¬ t.profit ≤ 0 := not_le.2 h
      simp [List.filter_cons, h, h2]
      omega
    · have h2 : ¬ 0 < t.profit := not_lt.2 h
      simp [List.filter_cons, h2, h]
      omega

/-- A series of at most 22 candles gives an empty bar-loop index range. -/
theorem simRange_eq_nil (n : ℕ) (h : n ≤ 22) : simRange n = [] := by
  unfold simRange
  have hx : Nat.max emaLongPeriod rsiPeriod + 1 = 22 := rfl
  rw [hx]
  have : n - 22 = 0 := Nat.sub_eq_zero_of_le h
  rw [this]
  rfl

/-! ## Claims -/

set_option maxRecDepth 1000000 in
unseal Rat.add Rat.mul Rat.sub Rat.inv in
/-- Claim C1 (code-bug evidence): the lookup `series[i - (series.length -
closes.length)]` of lines 274-279 reads array index `i + k` instead of the
aligned index `i - k`, where `k = closes.length - series.length` is the
warm-up. Over 70 closes with the RSI(14) series of length 56 (`k = 14`,
element at index `j` holding the value `j`): at the first evaluated bar 22 the
code reads the element at index 36 — the value aligned to candle 50, a later
candle — while the aligned element sits at index 8; at bar 42 the code reads
past the array's end (`undefined`) although the aligned element at index 28
exists. -/
theorem claim1_indicator_misalignment :
    indicatorAt c1Series 70 22 = some 36 ∧
      c1Series.get? (22 - 14) = some 8 ∧
      indicatorAt c1Series 70 42 = none ∧
      c1Series.get? (42 - 14) = some 28 ∧
      c1Series.length = 70 - 14 ∧
      some (36 : ℚ) ≠ some (8 : ℚ) := by decide

set_option maxRecDepth 1000000 in
unseal Rat.add Rat.mul Rat.sub Rat.inv in
/-- Claim C2 counterexample: in the `c2Input` run the LONG position opened at
bar 22 (timestamp 79200000) is stopped out on bar 23 (timestamp 82800000), and
a SHORT position is opened on that same bar 23 (later force-closed on the last
bar, timestamp 248400000): the second trade's entry date equals the first
trade's exit date, so an entry did occur on the same bar as an exit. -/
theorem claim2_counterexample :
    (runBacktest c2Input monthKey dayKey ratSqrt).map
        (fun r => r.trades.map fun t => (t.entryDate, t.exitDate)) =
      some [(79200000, 82800000), (82800000, 248400000)] := by decide

/-- Claim C2 amended: when the stop-loss exit fires on an open LONG position
and the same bar satisfies the SHORT entry conditions, the bar both records
the exit trade and opens the new SHORT position — the entry check of lines
386-440 runs in the same loop iteration after `position = null` was set. -/
theorem claim2_amended (inp : SimInput) (m : ℤ → ℤ) (s : SimState) (i : ℕ) (p : Position)
    (hp : s.position = some p) (hside : p.side = Side.BUY)
    (hsl : (inp.historicalData.getD i defaultCandle).low ≤ p.stopLoss)
    (h4 : oGt (indicatorAt inp.emaShort (inp.historicalData.map Candle.close).length ((i : ℤ) - 1))
        (indicatorAt inp.emaLong (inp.historicalData.map Candle.close).length ((i : ℤ) - 1)) =
        true)
    (h5 : oLt (indicatorAt inp.emaShort (inp.historicalData.map Candle.close).length (i : ℤ))
        (indicatorAt inp.emaLong (inp.historicalData.map Candle.close).length (i : ℤ)) = true)
    (h6 : oGt (indicatorAt inp.rsiValues (inp.historicalData.map Candle.close).length (i : ℤ))
        (some rsiOverbought) = true) :
    (simStep inp m s i).trades.length = s.trades.length + 1 ∧
      ((simStep inp m s i).trades.getLast?).map Trade.exitDate =
        some (inp.historicalData.getD i defaultCandle).timestamp ∧
      ((simStep inp m s i).position).map Position.side = some Side.SELL ∧
      ((simStep inp m s i).position).map Position.entryDate =
        some (inp.historicalData.getD i defaultCandle).timestamp := by
  have hdec := exitDecision_buy_sl inp p i hside hsl
  obtain ⟨hx1, hx2, hx3⟩ := simStep_trades_of_exit inp m s i p p.stopLoss hp hdec
  have hmp : (monthlyUpdate m s (inp.historicalData.getD i defaultCandle)
      (inp.historicalData.getD (i - 1) defaultCandle)).position = some p := by
    rw [monthlyUpdate_position]
    exact hp
  have hc := closeUpdate_of_exit inp
    (monthlyUpdate m s (inp.historicalData.getD i defaultCandle)
      (inp.historicalData.getD (i - 1) defaultCandle)) i p p.stopLoss hmp hdec
  have hpos3 : (drawdownUpdate (closeUpdate inp
      (monthlyUpdate m s (inp.historicalData.getD i defaultCandle)
        (inp.historicalData.getD (i - 1) defaultCandle)) i)).position = none := by
    rw [drawdownUpdate_position, hc]
  have hq := entryUpdate_of_sell inp
    (drawdownUpdate (closeUpdate inp
      (monthlyUpdate m s (inp.historicalData.getD i defaultCandle)
        (inp.historicalData.getD (i - 1) defaultCandle)) i)) i hpos3 h4 h5 h6
  have hstep : (simStep inp m s i).position =
      (entryUpdate inp (drawdownUpdate (closeUpdate inp
        (monthlyUpdate m s (inp.historicalData.getD i defaultCandle)
          (inp.historicalData.getD (i - 1) defaultCandle)) i)) i).position := rfl
  refine ⟨hx3, hx2, ?_, ?_⟩
  · rw [hstep, hq]
    rfl
  · rw [hstep, hq]
    rfl

set_option maxRecDepth 1000000 in
unseal Rat.add Rat.mul Rat.sub Rat.inv in
/-- Witness for the amended claim C2 at bar 23 of the `c2Input` run, from the
explicit pre-bar state `c2State`. -/
theorem claim2_witness :
    (simStep c2Input monthKey c2State 23).trades.length = c2State.trades.length + 1 ∧
      ((simStep c2Input monthKey c2State 23).trades.getLast?).map Trade.exitDate =
        some (c2Input.historicalData.getD 23 defaultCandle).timestamp ∧
      ((simStep c2Input monthKey c2State 23).position).map Position.side = some Side.SELL ∧
      ((simStep c2Input monthKey c2State 23).position).map Position.entryDate =
        some (c2Input.historicalData.getD 23 defaultCandle).timestamp :=
  claim2_amended c2Input monthKey c2State 23 ⟨Side.BUY, 100, 99, 102, 5, 79200000, 79200000⟩
    rfl rfl (by decide) (by decide) (by decide) (by decide)

set_option maxRecDepth 1000000 in
unseal Rat.add Rat.mul Rat.sub Rat.inv in
/-- Claim C3 counterexample: a non-empty 5-candle series — shorter than the
22-bar warm-up, so zero bars are evaluated — does not make `runBacktest`
report an error: it returns a result with zero trades. -/
theorem claim3_counterexample :
    (runBacktest c3Input monthKey dayKey ratSqrt).map
        (fun r => (r.totalTrades, r.finalBalance)) = some (0, 10000) ∧
      c3Input.historicalData.length = 5 := by decide

/-- Claim C3 amended: `runBacktest` reports the error exactly when the candle
series is empty (lines 227-229 check `length === 0` only); a non-empty series
with zero bars after warm-up (length at most 22) instead yields a
`BacktestResult` with zero trades and an unchanged balance. -/
theorem claim3_amended (inp : SimInput) (m d : ℤ → ℤ) (sq : ℚ → ℚ) :
    (runBacktest inp m d sq = none ↔ inp.historicalData.length = 0) ∧
      (inp.historicalData.length ≠ 0 → inp.historicalData.length ≤ 22 →
        (runBacktest inp m d sq).map BacktestResult.totalTrades = some 0 ∧
          (runBacktest inp m d sq).map BacktestResult.finalBalance =
            some inp.initialBalance) := by
  constructor
  · constructor
    · intro h
      by_contra hne
      unfold runBacktest at h
      rw [if_neg hne] at h
      exact Option.noConfusion h
    · intro h
      unfold runBacktest
      rw [if_pos h]
  · intro h1 h2
    have hfs : finalState inp m = initState inp := by
      unfold finalState
      rw [simRange_eq_nil _ h2]
      rfl
    have hfc : forceClose inp (finalState inp m) = initState inp := by
      rw [hfs]
      exact forceClose_of_none inp _ rfl
    have htt : (backtestResult inp m d sq).totalTrades = 0 := by
      show (forceClose inp (finalState inp m)).trades.length = 0
      rw [hfc]
      rfl
    have hfb : (backtestResult inp m d sq).finalBalance = inp.initialBalance := by
      show (forceClose inp (finalState inp m)).balance = inp.initialBalance
      rw [hfc]
      rfl
    unfold runBacktest
    rw [if_neg h1]
    constructor
    · show some (backtestResult inp m d sq).totalTrades = some 0
      rw [htt]
    · show some (backtestResult inp m d sq).finalBalance = some inp.initialBalance
      rw [hfb]

set_option maxRecDepth 1000000 in
unseal Rat.add Rat.mul Rat.sub Rat.inv in
/-- Witness for the amended claim C3 on the 3-candle `tinyInput`. -/
theorem claim3_witness :
    (runBacktest tinyInput monthKey dayKey ratSqrt = none ↔
        tinyInput.historicalData.length = 0) ∧
      ((runBacktest tinyInput monthKey dayKey ratSqrt).map BacktestResult.totalTrades =
          some 0 ∧
        (runBacktest tinyInput monthKey dayKey ratSqrt).map BacktestResult.finalBalance =
          some tinyInput.initialBalance) :=
  ⟨(claim3_amended tinyInput monthKey dayKey ratSqrt).1,
    (claim3_amended tinyInput monthKey dayKey ratSqrt).2 (by decide) (by decide)⟩

/-- Claim C4: exit evaluation precedence. If the bar touches the stop price
(LONG: low at or below the stop; SHORT: high at or above it), the position is
closed at exactly the stop-loss price — with no assumption on the bar's other
prices, so in particular even when the take-profit is touched on the same bar
and even when the trend-reversal conditions hold; if the stop is not touched
but the target is, the exit is at exactly the take-profit price, again
regardless of the reversal conditions. -/
theorem claim4_exit_precedence (inp : SimInput) (m : ℤ → ℤ) (s : SimState) (i : ℕ)
    (p : Position) (hp : s.position = some p) :
    (p.side = Side.BUY → (inp.historicalData.getD i defaultCandle).low ≤ p.stopLoss →
      ((simStep inp m s i).trades.getLast?).map Trade.exitPrice = some p.stopLoss ∧
        (simStep inp m s i).trades.length = s.trades.length + 1) ∧
      (p.side = Side.SELL → p.stopLoss ≤ (inp.historicalData.getD i defaultCandle).high →
        ((simStep inp m s i).trades.getLast?).map Trade.exitPrice = some p.stopLoss ∧
          (simStep inp m s i).trades.length = s.trades.length + 1) ∧
      (p.side = Side.BUY → ¬ (inp.historicalData.getD i defaultCandle).low ≤ p.stopLoss →
        p.takeProfit ≤ (inp.historicalData.getD i defaultCandle).high →
        ((simStep inp m s i).trades.getLast?).map Trade.exitPrice = some p.takeProfit ∧
          (simStep inp m s i).trades.length = s.trades.length + 1) ∧
      (p.side = Side.SELL → ¬ p.stopLoss ≤ (inp.historicalData.getD i defaultCandle).high →
        (inp.historicalData.getD i defaultCandle).low ≤ p.takeProfit →
        ((simStep inp m s i).trades.getLast?).map Trade.exitPrice = some p.takeProfit ∧
          (simStep inp m s i).trades.length = s.trades.length + 1) := by
  refine ⟨fun h1 h2 => ?_, fun h1 h2 => ?_, fun h1 h2 h3 => ?_, fun h1 h2 h3 => ?_⟩
  · obtain ⟨ha, -, hc⟩ := simStep_trades_of_exit inp m s i p p.stopLoss hp
      (exitDecision_buy_sl inp p i h1 h2)
    exact ⟨ha, hc⟩
  · obtain ⟨ha, -, hc⟩ := simStep_trades_of_exit inp m s i p p.stopLoss hp
      (exitDecision_sell_sl inp p i h1 h2)
    exact ⟨ha, hc⟩
  · obtain ⟨ha, -, hc⟩ := simStep_trades_of_exit inp m s i p p.takeProfit hp
      (exitDecision_buy_tp inp p i h1 h2 h3)
    exact ⟨ha, hc⟩
  · obtain ⟨ha, -, hc⟩ := simStep_trades_of_exit inp m s i p p.takeProfit hp
      (exitDecision_sell_tp inp p i h1 h2 h3)
    exact ⟨ha, hc⟩

set_option maxRecDepth 1000000 in
unseal Rat.add Rat.mul Rat.sub Rat.inv in
/-- Witness for claim C4: bar 23 of `c4Input` touches both the stop and the
target of either side; the recorded exits are at the stop prices (99 for the
LONG state, 101 for the SHORT state), not the targets. -/
theorem claim4_witness :
    (((simStep c4Input monthKey c4BuyState 23).trades.getLast?).map Trade.exitPrice =
        some 99 ∧
      (simStep c4Input monthKey c4BuyState 23).trades.length =
        c4BuyState.trades.length + 1) ∧
      (((simStep c4Input monthKey c4SellState 23).trades.getLast?).map Trade.exitPrice =
          some 101 ∧
        (simStep c4Input monthKey c4SellState 23).trades.length =
          c4SellState.trades.length + 1) :=
  ⟨(claim4_exit_precedence c4Input monthKey c4BuyState 23
      ⟨Side.BUY, 100, 99, 102, 5, 0, 0⟩ rfl).1 rfl (by decide),
    (claim4_exit_precedence c4Input monthKey c4SellState 23
      ⟨Side.SELL, 100, 101, 98, 5, 0, 0⟩ rfl).2.1 rfl (by decide)⟩

set_option maxRecDepth 1000000 in
unseal Rat.add Rat.mul Rat.sub Rat.inv in
/-- Claim C5 counterexample: in the `c5Input` run the only drawdown event is a
5-point dip to equity 9995 against the then-current peak 10000 (see the curve
prefix), so the claim's value is 5 / 10000 × 100 = 1/20; the later winning
trade raises the final peak to 10004.995 and the returned `maxDrawdownPercent`
is 5 / 10004.995 × 100 = 100000/2000999 ≠ 1/20. -/
theorem claim5_counterexample :
    (runBacktest c5Input monthKey dayKey ratSqrt).map
        (fun r => (r.maxDrawdown, r.maxDrawdownPercent, r.equityCurve.take 5)) =
      some (5, 100000 / 2000999, [10000, 10000, 9995, 9995, 2000999 / 200]) ∧
      (100000 / 2000999 : ℚ) ≠ 5 / 10000 * 100 := by decide

/-- Claim C5 amended: `maxDrawdownPercent` equals `maxDrawdown` divided by the
final overall running peak of the run — the running maximum of the equity
curve seeded with the initial balance (line 477 divides by the end-of-run
`maxBalance`) — times 100, not by the peak in effect when the maximum
drawdown was observed. -/
theorem claim5_amended (inp : SimInput) (m d : ℤ → ℤ) (sq : ℚ → ℚ) :
    (backtestResult inp m d sq).maxDrawdownPercent =
      (backtestResult inp m d sq).maxDrawdown /
        ((backtestResult inp m d sq).equityCurve.foldl max
          (backtestResult inp m d sq).initialBalance) * 100 := by
  show (forceClose inp (finalState inp m)).maxDrawdown /
      (forceClose inp (finalState inp m)).maxBalance * 100 =
    (forceClose inp (finalState inp m)).maxDrawdown /
      ((forceClose inp (finalState inp m)).equityCurve.foldl max inp.initialBalance) * 100
  rw [forceClose_maxBalance, forceClose_equityCurve]
  have key := foldl_maxBalance_inv inp m inp.initialBalance
    (simRange inp.historicalData.length) (initState inp)
    (max_self inp.initialBalance).symm
  rw [show finalState inp m =
    (simRange inp.historicalData.length).foldl (simStep inp m) (initState inp) from rfl, key]

/-- Witness for the amended claim C5 on the 3-candle `tinyInput`. -/
theorem claim5_witness :
    (backtestResult tinyInput monthKey dayKey ratSqrt).maxDrawdownPercent =
      (backtestResult tinyInput monthKey dayKey ratSqrt).maxDrawdown /
        ((backtestResult tinyInput monthKey dayKey ratSqrt).equityCurve.foldl max
          (backtestResult tinyInput monthKey dayKey ratSqrt).initialBalance) * 100 :=
  claim5_amended tinyInput monthKey dayKey ratSqrt

set_option maxRecDepth 1000000 in
unseal Rat.add Rat.mul Rat.sub Rat.inv in
/-- Claim C6 counterexample: in the `c6Input` run a position is still open
after the last bar and is force-closed at the last close 101 with profit 5;
the returned `finalBalance` is 10005 but the equity curve's last element is
10000 — the force-close profit is never appended to the curve (lines 443-470
update `balance` only). -/
theorem claim6_counterexample :
    (runBacktest c6Input monthKey dayKey ratSqrt).map
        (fun r => (r.finalBalance, r.equityCurve.getLast?)) = some (10005, some 10000) ∧
      (10000 : ℚ) ≠ 10005 := by decide

/-- Claim C6 amended: the last element of the equity curve equals
`finalBalance` in every run that ends `FLAT` (no position open after the last
bar); when a position remains open, its force-close profit is added to
`finalBalance` but not to the curve, so the two differ by that profit. -/
theorem claim6_amended (inp : SimInput) (m d : ℤ → ℤ) (sq : ℚ → ℚ)
    (h : (finalState inp m).position = none) :
    (backtestResult inp m d sq).equityCurve.getLast? =
      some ((backtestResult inp m d sq).finalBalance) := by
  show (forceClose inp (finalState inp m)).equityCurve.getLast? =
    some ((forceClose inp (finalState inp m)).balance)
  rw [forceClose_of_none inp _ h]
  obtain ⟨h1, h2⟩ := foldl_last_balance_inv inp m (simRange inp.historicalData.length)
    (initState inp) rfl rfl
  rw [show finalState inp m =
    (simRange inp.historicalData.length).foldl (simStep inp m) (initState inp) from rfl]
  rw [h2, h1]

set_option maxRecDepth 1000000 in
unseal Rat.add Rat.mul Rat.sub Rat.inv in
/-- Witness for the amended claim C6 on the 5-candle `c3Input` run, which
ends with no open position. -/
theorem claim6_witness :
    (backtestResult c3Input monthKey dayKey ratSqrt).equityCurve.getLast? =
      some ((backtestResult c3Input monthKey dayKey ratSqrt).finalBalance) :=
  claim6_amended c3Input monthKey dayKey ratSqrt (by decide)

set_option maxRecDepth 1000000 in
unseal Rat.add Rat.mul Rat.sub Rat.inv in
/-- Claim C7 counterexample: over the two windows with profit percents 2 and 1
(mean 3/2, population standard deviation 1/2 — note (1/2)² is exactly the
variance — and 100% profitable months), the code returns 1 × (3/2)/(1/2) × 1
= 3, while the claim's formula sign × mean/max(σ,1) × pm/100 gives
1 × (3/2)/1 × 1 = 3/2: the `||`-divisor is σ itself when σ is nonzero, not
max(σ, 1). -/
theorem claim7_counterexample :
    (validateStrategyRobustness c7Window 2 ratSqrt).robustnessFactor = 3 ∧
      (validateStrategyRobustness c7Window 2 ratSqrt).avgProfitPercent = 3 / 2 ∧
      (validateStrategyRobustness c7Window 2 ratSqrt).profitStdDev = 1 / 2 ∧
      ((1 : ℚ) / 2) ^ 2 = (((2 : ℚ) - 3 / 2) ^ 2 + ((1 : ℚ) - 3 / 2) ^ 2) / 2 ∧
      (validateStrategyRobustness c7Window 2 ratSqrt).profitableMonthsPercent = 100 ∧
      specRobustnessFactor (3 / 2) (1 / 2) 100 = 3 / 2 ∧
      (3 : ℚ) ≠ 3 / 2 := by decide

/-- Claim C7 amended: the robustness factor of lines 799-802 is
`(1 if meanProfit > 0 else 0) × (meanProfit / (stdDevProfit if nonzero else
1)) × (profitableMonthsPercent / 100)`: the first factor is an indicator (0
for zero or negative mean, never −1) and the divisor is `stdDevProfit || 1`
(the standard deviation itself whenever it is nonzero), not
`max(stdDevProfit, 1)`. -/
theorem claim7_amended (runWindow : ℕ → WindowRun) (lookbackMonths : ℕ) (sqrtFn : ℚ → ℚ)
    (_h : 0 < lookbackMonths) :
    (validateStrategyRobustness runWindow lookbackMonths sqrtFn).robustnessFactor =
      (if 0 < meanQ (windowProfits runWindow lookbackMonths) then 1 else 0) *
        (meanQ (windowProfits runWindow lookbackMonths) /
          (if sqrtFn (popVarQ (windowProfits runWindow lookbackMonths)) = 0 then 1
            else sqrtFn (popVarQ (windowProfits runWindow lookbackMonths)))) *
        (profitableMonthsPercentOf runWindow lookbackMonths / 100) := rfl

set_option maxRecDepth 1000000 in
unseal Rat.add Rat.mul Rat.sub Rat.inv in
/-- Witness for the amended claim C7 on the two `c7Window` windows. -/
theorem claim7_witness :
    (validateStrategyRobustness c7Window 2 ratSqrt).robustnessFactor =
      (if 0 < meanQ (windowProfits c7Window 2) then 1 else 0) *
        (meanQ (windowProfits c7Window 2) /
          (if ratSqrt (popVarQ (windowProfits c7Window 2)) = 0 then 1
            else ratSqrt (popVarQ (windowProfits c7Window 2)))) *
        (profitableMonthsPercentOf c7Window 2 / 100) :=
  claim7_amended c7Window 2 ratSqrt (by decide)

/-- Claim C8: the optimizer visits the whole position-size × stop-loss ×
take-profit grid, scores each run by `2×profitPercent − 3×maxDrawdownPercent
+ 10×sharpeRatio + 0.5×winRate`, and returns a grid point whose score is
maximal over the grid and strictly greater than every score earlier in
grid-iteration order (ties keep the first point found). -/
theorem claim8_grid_argmax (data : List Candle) (rsi emaS emaL : List ℚ)
    (initialBalance : ℚ) (m d : ℤ → ℤ) (sq : ℚ → ℚ) (h : data.length ≠ 0) :
    ∃ b l r, optimizeStrategy data rsi emaS emaL initialBalance m d sq = some b ∧
      gridPoints = l ++ (b.positionSize, b.stopLoss, b.takeProfit) :: r ∧
      b.score = gpScore (optRunFn data rsi emaS emaL initialBalance m d sq)
        (b.positionSize, b.stopLoss, b.takeProfit) ∧
      b.result = optRunFn data rsi emaS emaL initialBalance m d sq
        b.positionSize b.stopLoss b.takeProfit ∧
      (∀ gp ∈ gridPoints,
        gpScore (optRunFn data rsi emaS emaL initialBalance m d sq) gp ≤ b.score) ∧
      (∀ gp ∈ l, gpScore (optRunFn data rsi emaS emaL initialBalance m d sq) gp < b.score) := by
  obtain ⟨b', hfold, hle, hall, hcase⟩ :=
    foldl_optStep_spec (optRunFn data rsi emaS emaL initialBalance m d sq) gridPoints.tail
      (mkBest (optRunFn data rsi emaS emaL initialBalance m d sq) ((1 : ℚ), (1 : ℚ) / 2, (1 : ℚ)))
  have hopt : optimizeStrategy data rsi emaS emaL initialBalance m d sq = some b' := by
    unfold optimizeStrategy
    rw [if_neg h, optimizeCore_eq_foldl,
      show gridPoints = ((1 : ℚ), (1 : ℚ) / 2, (1 : ℚ)) :: gridPoints.tail from rfl,
      List.foldl_cons]
    exact hfold
  rcases hcase with hcase | ⟨l, gp, r, hxs, hb', hlt, hl⟩
  · refine ⟨b', [], gridPoints.tail, hopt, ?_, ?_, ?_, ?_, ?_⟩
    · rw [hcase]
      rfl
    · rw [hcase]
      rfl
    · rw [hcase]
      rfl
    · intro gp hgp
      have hgp' : gp ∈ ((1 : ℚ), (1 : ℚ) / 2, (1 : ℚ)) :: gridPoints.tail := hgp
      rcases List.mem_cons.1 hgp' with hgp'' | hgp''
      · rw [hgp'', hcase]
        exact le_refl _
      · exact hall gp hgp''
    · intro gp hgp
      exact absurd hgp (List.not_mem_nil gp)
  · refine ⟨b', ((1 : ℚ), (1 : ℚ) / 2, (1 : ℚ)) :: l, r, hopt, ?_, ?_, ?_, ?_, ?_⟩
    · rw [hb',
        show gridPoints = ((1 : ℚ), (1 : ℚ) / 2, (1 : ℚ)) :: gridPoints.tail from rfl, hxs]
      rfl
    · rw [hb']
      rfl
    · rw [hb']
      rfl
    · intro gp' hgp
      have hgp' : gp' ∈ ((1 : ℚ), (1 : ℚ) / 2, (1 : ℚ)) :: gridPoints.tail := hgp
      rcases List.mem_cons.1 hgp' with hgp'' | hgp''
      · rw [hgp'']
        exact hle
      · exact hall gp' hgp''
    · intro gp' hgp
      rcases List.mem_cons.1 hgp with hgp'' | hgp''
      · rw [hgp'']
        exact hlt
      · exact hl gp' hgp''

set_option maxRecDepth 1000000 in
unseal Rat.add Rat.mul Rat.sub Rat.inv in
/-- Witness for claim C8 on the 3-candle run (all 64 grid scores coincide, so
the returned point is the first in grid order). -/
theorem claim8_witness :
    ∃ b l r, optimizeStrategy tinyCandles [] [] [] 10000 monthKey dayKey ratSqrt = some b ∧
      gridPoints = l ++ (b.positionSize, b.stopLoss, b.takeProfit) :: r ∧
      b.score = gpScore (optRunFn tinyCandles [] [] [] 10000 monthKey dayKey ratSqrt)
        (b.positionSize, b.stopLoss, b.takeProfit) ∧
      b.result = optRunFn tinyCandles [] [] [] 10000 monthKey dayKey ratSqrt
        b.positionSize b.stopLoss b.takeProfit ∧
      (∀ gp ∈ gridPoints,
        gpScore (optRunFn tinyCandles [] [] [] 10000 monthKey dayKey ratSqrt) gp ≤ b.score) ∧
      (∀ gp ∈ l,
        gpScore (optRunFn tinyCandles [] [] [] 10000 monthKey dayKey ratSqrt) gp < b.score) :=
  claim8_grid_argmax tinyCandles [] [] [] 10000 monthKey dayKey ratSqrt (by decide)

/-- Claim C9: the returned `winRate` is `winningTrades / totalTrades × 100`
when there are trades and exactly 0 when there are none (the JS
`(w / t) * 100 || 0` collapses the 0/0 NaN to 0, modelled by the guard; no
unguarded division reaches the result). -/
theorem claim9_winrate (inp : SimInput) (m d : ℤ → ℤ) (sq : ℚ → ℚ) :
    (backtestResult inp m d sq).winRate =
      if (backtestResult inp m d sq).totalTrades = 0 then 0
      else ((backtestResult inp m d sq).winningTrades : ℚ) /
        ((backtestResult inp m d sq).totalTrades : ℚ) * 100 := rfl

/-- Witness for claim C9 on the two-trade `c2Input` run. -/
theorem claim9_witness :
    (backtestResult c2Input monthKey dayKey ratSqrt).winRate =
      if (backtestResult c2Input monthKey dayKey ratSqrt).totalTrades = 0 then 0
      else ((backtestResult c2Input monthKey dayKey ratSqrt).winningTrades : ℚ) /
        ((backtestResult c2Input monthKey dayKey ratSqrt).totalTrades : ℚ) * 100 :=
  claim9_winrate c2Input monthKey dayKey ratSqrt

/-- Claim C10: `winningTrades` counts exactly the trades with strictly
positive profit (line 475 uses `t.profit > 0`), `losingTrades` is
`totalTrades - winningTrades` and so counts exactly the trades with profit at
most 0 — a zero-profit trade is a losing trade, never a winning one. -/
theorem claim10_zero_profit (inp : SimInput) (m d : ℤ → ℤ) (sq : ℚ → ℚ) :
    (backtestResult inp m d sq).winningTrades =
      ((backtestResult inp m d sq).trades.filter fun t => decide (0 < t.profit)).length ∧
      (backtestResult inp m d sq).losingTrades =
        ((backtestResult inp m d sq).trades.filter fun t => decide (t.profit ≤ 0)).length ∧
      (backtestResult inp m d sq).winningTrades + (backtestResult inp m d sq).losingTrades =
        (backtestResult inp m d sq).totalTrades := by
  have hf := length_filter_profit ((backtestResult inp m d sq).trades)
  have h1 : (backtestResult inp m d sq).winningTrades =
      ((backtestResult inp m d sq).trades.filter fun t => decide (0 < t.profit)).length := rfl
  have h2 : (backtestResult inp m d sq).losingTrades =
      (backtestResult inp m d sq).trades.length - (backtestResult inp m d sq).winningTrades :=
    rfl
  have h3 : (backtestResult inp m d sq).totalTrades =
      (backtestResult inp m d sq).trades.length := rfl
  refine ⟨h1, ?_, ?_⟩ <;> omega

/-- Witness for claim C10 on the two-trade `c2Input` run (one losing, one
winning trade). -/
theorem claim10_witness :
    (backtestResult c2Input monthKey dayKey ratSqrt).winningTrades =
      ((backtestResult c2Input monthKey dayKey ratSqrt).trades.filter
        fun t => decide (0 < t.profit)).length ∧
      (backtestResult c2Input monthKey dayKey ratSqrt).losingTrades =
        ((backtestResult c2Input monthKey dayKey ratSqrt).trades.filter
          fun t => decide (t.profit ≤ 0)).length ∧
      (backtestResult c2Input monthKey dayKey ratSqrt).winningTrades +
          (backtestResult c2Input monthKey dayKey ratSqrt).losingTrades =
        (backtestResult c2Input monthKey dayKey ratSqrt).totalTrades :=
  claim10_zero_profit c2Input monthKey dayKey ratSqrt

end TrendBacktest
